import Mathlib

/-!
Verification of the control logic of `squirrel_navigation::LocalPlanner`
(src/squirrel_navigation/src/local_planner.cpp) over a shallow embedding.
Doubles are modelled as real numbers; ROS plumbing (publishers, parameter
server, visualization) carries no control state and is omitted.  The
collaborators whose code is not among the repository files under src/
(`math_utils`, `ReplanningGuard`, `ControllerPID`, `LinearMotionPlanner`)
are modelled from the spec; each such definition is marked
"Modelled from the spec".
-/

namespace SquirrelNav

/-- A planar pose: position (x, y) and heading (yaw, radians).  The source
stores `geometry_msgs::Pose` and reads the heading with `tf::getYaw`; the
embedding stores the yaw directly. -/
structure Pose where
  x : ℝ
  y : ℝ
  yaw : ℝ

/-- A command twist: the three components the local planner reads and writes
(`linear.x`, `linear.y`, `angular.z`). -/
structure Twist where
  linx : ℝ
  liny : ℝ
  angz : ℝ

/-- A stamped pose, as in `geometry_msgs::PoseStamped` (only the stamp and
the pose are used by the planner's control logic). -/
structure PoseStamped where
  stamp : ℝ
  pose : Pose

/-- C `std::hypot`, exact over the reals. -/
noncomputable def hypot (x y : ℝ) : ℝ :=
  Real.sqrt (x ^ 2 + y ^ 2)

/-- Modelled from the spec: `math::linearDistance2D` is declared in
`utils/math_utils.h`, which is not among the repository files under src/.
The spec's "linear displacement"/"linear tolerance" metric: the planar
Euclidean distance between the positions of two poses. -/
noncomputable def linearDistance2D (p q : Pose) : ℝ :=
  hypot (p.x - q.x) (p.y - q.y)

/-- Modelled from the spec: normalization of an angle into the spec's
canonical heading range ("heading normalized to (−π, π]"). -/
noncomputable def normalizeAngle (a : ℝ) : ℝ :=
  a - 2 * Real.pi * (Int.ceil (a / (2 * Real.pi) - 1 / 2) : ℝ)

/-- Modelled from the spec: `math::angularDistanceYaw` is declared in
`utils/math_utils.h`, which is not among the repository files under src/.
The spec's "angular displacement"/"angular tolerance" metric: the absolute
normalized difference of the two headings. -/
noncomputable def angularDistanceYaw (p q : Pose) : ℝ :=
  |normalizeAngle (p.yaw - q.yaw)|

/-- Modelled from the spec: the replanning coordinator
(`ReplanningGuard` / `ReplanningGuardInstance`) is not among the repository
files under src/.  The spec gives it a single process-scoped boolean,
"true means a global replan is owed". -/
structure ReplanningGuard where
  replanning_flag : Bool

/-- Modelled from the spec: "requestReplanning() — sets the flag;
idempotent".  The spec's ReplanningFlag is "set whenever deviation exceeds
threshold"; this is the coordinator operation the control tick performs on
the deviation path. -/
def ReplanningGuard.requestReplanning (_g : ReplanningGuard) : ReplanningGuard :=
  ⟨true⟩

/-- Modelled from the spec: "clear() — resets it"; the flag is "cleared when
a new goal is accepted or the goal is reached". -/
def ReplanningGuard.clearFlag (_g : ReplanningGuard) : ReplanningGuard :=
  ⟨false⟩

/-- Modelled from the spec: the feedback controller's per-goal state
(`ControllerPID` is not among the repository files under src/): integral and
derivative accumulators plus the time of the last reset. -/
structure ControllerState where
  int_err : Twist
  prev_err : Twist
  reset_time : ℝ

/-- Modelled from the spec: "reset(time) clears integral/derivative
accumulators". -/
noncomputable def controllerReset (t : ℝ) : ControllerState :=
  { int_err := ⟨0, 0, 0⟩, prev_err := ⟨0, 0, 0⟩, reset_time := t }

/-- Modelled from the spec: the motion planner's state
(`LinearMotionPlanner` is not among the repository files under src/): it
"holds the active waypoint sequence and the time origin of the current
trajectory". -/
structure MotionPlannerState where
  waypoints : List PoseStamped
  start_time : ℝ

/-- Modelled from the spec: "reset(waypoints, startTime) discards prior
trajectory state and begins a new one". -/
def motionPlannerReset (wps : List PoseStamped) (t : ℝ) : MotionPlannerState :=
  { waypoints := wps, start_time := t }

/-- Modelled from the spec: "update(waypoints, startTime) replaces the
waypoint sequence but preserves trajectory timing/progress". -/
def motionPlannerUpdate (mp : MotionPlannerState) (wps : List PoseStamped)
    (_t : ℝ) : MotionPlannerState :=
  { waypoints := wps, start_time := mp.start_time }

/-- `LocalPlanner::Params` (local_planner.cpp): the numeric thresholds read
by the control logic (the odometry topic name and the observer tag list
carry no control logic and are omitted). -/
structure Params where
  goal_lin_tolerance : ℝ
  goal_ang_tolerance : ℝ
  max_safe_lin_velocity : ℝ
  max_safe_ang_velocity : ℝ
  max_safe_lin_displacement : ℝ
  max_safe_ang_displacement : ℝ
  verbose : Bool

/-- `LocalPlanner::Params::defaultParams` (local_planner.cpp, lines 343-355). -/
noncomputable def Params.defaultParams : Params where
  goal_lin_tolerance := 0.05
  goal_ang_tolerance := 0.05
  max_safe_lin_velocity := 0.5
  max_safe_ang_velocity := 0.7
  max_safe_lin_displacement := 0.5
  max_safe_ang_displacement := 1.0
  verbose := false

/-- The mutable state of a `LocalPlanner` instance touched by the control
logic: the current goal (`current_goal_`, `none` when idle), the shared
robot state (`robot_pose_`, `robot_twist_`), the controller and
motion-planner state, and the process-scoped replanning coordinator. -/
structure PlannerState where
  current_goal : Option Pose
  robot_pose : PoseStamped
  robot_twist : Twist
  controller : ControllerState
  motion_planner : MotionPlannerState
  guard : ReplanningGuard

/-- C `std::copysign`: the magnitude of the first argument with the sign of
the second (at its one use, local_planner.cpp line 332, the second argument
is nonzero, so signed zeros play no role). -/
noncomputable def copysign (mag sgn : ℝ) : ℝ :=
  if sgn < 0 then -|mag| else |mag|

/-- `LocalPlanner::safeVelocityCommands` (local_planner.cpp, lines 317-333):
copies the twist, rescales the linear part onto the maximum linear speed
when its `hypot` magnitude exceeds it, and clamps the angular component with
`copysign` when its absolute value exceeds the angular maximum. -/
noncomputable def safeVelocityCommands (params : Params) (twist : Twist) : Twist :=
  let safe_lin :=
    if hypot twist.linx twist.liny > params.max_safe_lin_velocity then
      { twist with
        linx := params.max_safe_lin_velocity * twist.linx / hypot twist.linx twist.liny
        liny := params.max_safe_lin_velocity * twist.liny / hypot twist.linx twist.liny }
    else twist
  if |twist.angz| > params.max_safe_ang_velocity then
    { safe_lin with angz := copysign params.max_safe_ang_velocity twist.angz }
  else safe_lin

/-- `LocalPlanner::twistToGlobalFrame` (local_planner.cpp, lines 295-304),
transcribed as written: the second row of the matrix is
`s * linx + s * liny` (line 302 of the source). -/
noncomputable def twistToGlobalFrame (robot_yaw : ℝ) (robot_twist : Twist) : Twist :=
  let c := Real.cos robot_yaw
  let s := Real.sin robot_yaw
  { linx := c * robot_twist.linx - s * robot_twist.liny
    liny := s * robot_twist.linx + s * robot_twist.liny
    angz := robot_twist.angz }

/-- `LocalPlanner::twistToRobotFrame` (local_planner.cpp, lines 306-315). -/
noncomputable def twistToRobotFrame (robot_yaw : ℝ) (map_twist : Twist) : Twist :=
  let c := Real.cos (-robot_yaw)
  let s := Real.sin (-robot_yaw)
  { linx := c * map_twist.linx - s * map_twist.liny
    liny := s * map_twist.linx + c * map_twist.liny
    angz := map_twist.angz }

/-- `LocalPlanner::newGoal` (local_planner.cpp, lines 335-341): true when no
goal is set, otherwise when the pose differs from the current goal by more
than 1e-8 in position or in heading. -/
def newGoal (current_goal : Option Pose) (pose : Pose) : Prop :=
  match current_goal with
  | none => True
  | some g => linearDistance2D g pose > 1e-8 ∨ angularDistanceYaw g pose > 1e-8

noncomputable instance decNewGoal :
    (g : Option Pose) → (p : Pose) → Decidable (newGoal g p)
  | none, _ => isTrue trivial
  | some g, p =>
      inferInstanceAs
        (Decidable (linearDistance2D g p > 1e-8 ∨ angularDistanceYaw g p > 1e-8))

/-- `LocalPlanner::setPlan` (local_planner.cpp, lines 162-178): rejects an
empty plan; accepts as a no-op when the replanning coordinator reports no
replan owed; otherwise replaces the goal and resets the controller and the
motion planner on a new goal, and updates the motion planner in place
otherwise.  Returns the C++ boolean result with the planner state after the
call. -/
noncomputable def setPlan (s : PlannerState) (waypoints : List PoseStamped) :
    Bool × PlannerState :=
  match waypoints with
  | [] => (false, s)
  | w :: ws =>
    if s.guard.replanning_flag = false then (true, s)
    else
      let stamp := s.robot_pose.stamp
      let last := (w :: ws).getLast (List.cons_ne_nil w ws)
      if newGoal s.current_goal last.pose then
        (true,
          { s with
            current_goal := some last.pose
            controller := controllerReset stamp
            motion_planner := motionPlannerReset (w :: ws) stamp })
      else
        (true,
          { s with
            motion_planner := motionPlannerUpdate s.motion_planner (w :: ws) stamp })

/-- `LocalPlanner::isGoalReached` (local_planner.cpp, lines 146-160): false
when no goal is set; when the robot pose is within the linear and angular
goal tolerances, clears the goal, clears the replanning coordinator's flag,
and returns true; otherwise false.  Returns the C++ result with the state
after the call. -/
noncomputable def isGoalReached (params : Params) (s : PlannerState) :
    Bool × PlannerState :=
  match s.current_goal with
  | none => (false, s)
  | some goal =>
    if linearDistance2D s.robot_pose.pose goal ≤ params.goal_lin_tolerance ∧
        angularDistanceYaw s.robot_pose.pose goal ≤ params.goal_ang_tolerance then
      (true, { s with current_goal := none, guard := s.guard.clearFlag })
    else (false, s)

/-- `LocalPlanner::computeVelocityCommands` (local_planner.cpp, lines
101-144): any unsafe observer short-circuits to the zero command (success);
a robot pose too far from the reference clears the goal, makes a replan owed
on the coordinator and fails (the source calls the guard there under the
guard's own `enabled()` test; the guard's code is not among the files under
src/, and its effect on this path — and the coordinator being active — is
modelled from the spec: the flag is "set whenever deviation exceeds
threshold"); otherwise the PID command is computed, rotated into the robot frame,
clamped, and returned (success).

`observers` lists each configured safety observer's current `safe()`
verdict.  `refFn` stands for `LinearMotionPlanner::computeReference` and
`ctrlFn` for `ControllerPID::computeCommand` (neither is among the
repository files under src/); both enter the tick only through their
results, so the embedding takes them as parameters: `refFn` maps the
motion-planner state and the stamp to the reference (pose, twist); `ctrlFn`
maps the controller state, stamp, actual pose, reference pose, actual twist
and reference twist to the command twist and the updated accumulator state.
`cmd` is the caller's command buffer, returned untouched on the failure
path as in the source. -/
noncomputable def computeVelocityCommands
    (refFn : MotionPlannerState → ℝ → Pose × Twist)
    (ctrlFn : ControllerState → ℝ → Pose → Pose → Twist → Twist → Twist × ControllerState)
    (params : Params) (observers : List Bool) (s : PlannerState) (cmd : Twist) :
    Bool × Twist × PlannerState :=
  if observers.any (fun safe => !safe) then
    (true, ⟨0, 0, 0⟩, s)
  else
    let stamp := s.robot_pose.stamp
    let ref := refFn s.motion_planner stamp
    if linearDistance2D s.robot_pose.pose ref.1 > params.max_safe_lin_displacement ∨
        angularDistanceYaw s.robot_pose.pose ref.1 > params.max_safe_ang_displacement then
      (false, cmd, { s with current_goal := none, guard := s.guard.requestReplanning })
    else
      let ctrl_out := ctrlFn s.controller stamp s.robot_pose.pose ref.1 s.robot_twist ref.2
      let robot_cmd := twistToRobotFrame s.robot_pose.pose.yaw ctrl_out.1
      (true, safeVelocityCommands params robot_cmd, { s with controller := ctrl_out.2 })

/-- A concrete planner state used to instantiate the theorems: goal at the
origin, robot at the origin, replan owed. -/
noncomputable def sampleState : PlannerState where
  current_goal := some ⟨0, 0, 0⟩
  robot_pose := ⟨0, ⟨0, 0, 0⟩⟩
  robot_twist := ⟨0, 0, 0⟩
  controller := controllerReset 0
  motion_planner := motionPlannerReset [] 0
  guard := ⟨true⟩

/-- A constant reference at pose (0.6, 0, 0): the spec's deviation scenario. -/
noncomputable def refDeviation : MotionPlannerState → ℝ → Pose × Twist :=
  fun _ _ => (⟨0.6, 0, 0⟩, ⟨0, 0, 0⟩)

/-- A trivial controller function used to instantiate the theorems. -/
noncomputable def ctrlZero :
    ControllerState → ℝ → Pose → Pose → Twist → Twist → Twist × ControllerState :=
  fun c _ _ _ _ _ => (⟨0, 0, 0⟩, c)

/-- C1: with any configured observer reporting unsafe,
`computeVelocityCommands` returns success with the exact zero command, and
the planner state — goal, motion-planner trajectory, replanning flag and all
the rest — is unchanged. -/
theorem computeVelocityCommands_unsafe_zero
    (refFn : MotionPlannerState → ℝ → Pose × Twist)
    (ctrlFn : ControllerState → ℝ → Pose → Pose → Twist → Twist → Twist × ControllerState)
    (params : Params) (observers : List Bool) (s : PlannerState) (cmd : Twist)
    (h : false ∈ observers) :
    computeVelocityCommands refFn ctrlFn params observers s cmd = (true, ⟨0, 0, 0⟩, s) := by
  have hany : observers.any (fun safe => !safe) = true :=
    List.any_eq_true.mpr ⟨false, h, rfl⟩
  unfold computeVelocityCommands
  rw [hany]
  rfl

/-- C1 witness: one unsafe observer at a concrete state. -/
theorem computeVelocityCommands_unsafe_zero_witness :
    computeVelocityCommands refDeviation ctrlZero Params.defaultParams [false]
      sampleState ⟨0, 0, 0⟩ = (true, ⟨0, 0, 0⟩, sampleState) :=
  computeVelocityCommands_unsafe_zero refDeviation ctrlZero Params.defaultParams
    [false] sampleState ⟨0, 0, 0⟩ (List.mem_singleton.mpr rfl)

/-- C7: an empty plan is rejected and nothing — goal, trajectory, controller
accumulators, replanning flag — changes. -/
theorem setPlan_empty_rejected (s : PlannerState) :
    setPlan s [] = (false, s) := rfl

/-- C8: when the replanning coordinator reports no replan owed, a non-empty
plan is accepted as a success while changing no state. -/
theorem setPlan_no_replan_noop (s : PlannerState) (w : PoseStamped)
    (ws : List PoseStamped) (h : s.guard.replanning_flag = false) :
    setPlan s (w :: ws) = (true, s) := by
  simp only [setPlan]
  rw [if_pos h]

/-- C8 witness at a concrete state with the flag down. -/
theorem setPlan_no_replan_noop_witness :
    setPlan { sampleState with guard := ⟨false⟩ } [⟨0, ⟨1, 0, 0⟩⟩] =
      (true, { sampleState with guard := ⟨false⟩ }) :=
  setPlan_no_replan_noop { sampleState with guard := ⟨false⟩ } ⟨0, ⟨1, 0, 0⟩⟩ [] rfl

/-- The angle normalization fixes 0. -/
theorem normalizeAngle_zero : normalizeAngle 0 = 0 := by
  unfold normalizeAngle
  rw [zero_div]
  norm_num

/-- Two poses with the same heading are at angular distance 0. -/
theorem angularDistanceYaw_of_eq_yaw (p q : Pose) (h : p.yaw = q.yaw) :
    angularDistanceYaw p q = 0 := by
  unfold angularDistanceYaw
  rw [h, sub_self, normalizeAngle_zero, abs_zero]

/-- The value of `hypot` from a square decomposition. -/
theorem hypot_eq_of_sq (x y m : ℝ) (hm : 0 ≤ m) (h : x ^ 2 + y ^ 2 = m ^ 2) :
    hypot x y = m := by
  unfold hypot
  rw [h, Real.sqrt_sq hm]

theorem hypot_zero : hypot 0 0 = 0 :=
  hypot_eq_of_sq 0 0 0 le_rfl (by norm_num)

theorem hypot_sq (x y : ℝ) : hypot x y ^ 2 = x ^ 2 + y ^ 2 := by
  unfold hypot
  exact Real.sq_sqrt (by positivity)

/-- C2: with every observer safe and the robot pose farther from the computed
reference than the configured linear or angular displacement bound, the tick
returns failure, the goal is cleared, and the replanning flag becomes owed;
the command buffer, the controller accumulators and the motion-planner state
are untouched, so no command is computed or emitted on that tick. -/
theorem computeVelocityCommands_deviation_replans
    (refFn : MotionPlannerState → ℝ → Pose × Twist)
    (ctrlFn : ControllerState → ℝ → Pose → Pose → Twist → Twist → Twist × ControllerState)
    (params : Params) (observers : List Bool) (s : PlannerState) (cmd : Twist)
    (hsafe : ∀ o ∈ observers, o = true)
    (hdev :
      linearDistance2D s.robot_pose.pose (refFn s.motion_planner s.robot_pose.stamp).1 >
          params.max_safe_lin_displacement ∨
        angularDistanceYaw s.robot_pose.pose (refFn s.motion_planner s.robot_pose.stamp).1 >
          params.max_safe_ang_displacement) :
    computeVelocityCommands refFn ctrlFn params observers s cmd =
      (false, cmd,
        { s with current_goal := none, guard := s.guard.requestReplanning }) := by
  have hany : observers.any (fun safe => !safe) = false := by
    simp only [List.any_eq_false]
    intro o ho
    simp [hsafe o ho]
  unfold computeVelocityCommands
  simp only [hany, Bool.false_eq_true, if_false]
  rw [if_pos hdev]

/-- C2 witness: the spec's scenario — robot at (0, 0), reference at (0.6, 0),
maximum linear displacement 0.5. -/
theorem computeVelocityCommands_deviation_replans_witness :
    computeVelocityCommands refDeviation ctrlZero Params.defaultParams [true]
      sampleState ⟨0, 0, 0⟩ =
      (false, ⟨0, 0, 0⟩,
        { sampleState with
          current_goal := none
          guard := sampleState.guard.requestReplanning }) :=
  computeVelocityCommands_deviation_replans refDeviation ctrlZero Params.defaultParams
    [true] sampleState ⟨0, 0, 0⟩
    (by intro o ho; simpa using ho)
    (Or.inl (by
      show linearDistance2D sampleState.robot_pose.pose
          (refDeviation sampleState.motion_planner sampleState.robot_pose.stamp).1 >
          Params.defaultParams.max_safe_lin_displacement
      have hd : linearDistance2D sampleState.robot_pose.pose
          (refDeviation sampleState.motion_planner sampleState.robot_pose.stamp).1 = 0.6 := by
        show linearDistance2D ⟨0, 0, 0⟩ ⟨0.6, 0, 0⟩ = 0.6
        unfold linearDistance2D
        exact hypot_eq_of_sq _ _ _ (by norm_num) (by norm_num)
      rw [hd]
      norm_num [Params.defaultParams]))

/-- C5: `isGoalReached` returns false from any goal-less state; with a goal
active and the robot within both tolerances it clears the goal, clears the
replanning-owed flag and returns true; the immediately following call on the
resulting state returns false and changes nothing, so with the pose held in
tolerance it answers true exactly once until a new goal is set. -/
theorem isGoalReached_once (p : Params) (s : PlannerState) (g : Pose)
    (hg : s.current_goal = some g)
    (hlin : linearDistance2D s.robot_pose.pose g ≤ p.goal_lin_tolerance)
    (hang : angularDistanceYaw s.robot_pose.pose g ≤ p.goal_ang_tolerance) :
    (∀ s' : PlannerState, s'.current_goal = none → isGoalReached p s' = (false, s')) ∧
      isGoalReached p s =
        (true, { s with current_goal := none, guard := s.guard.clearFlag }) ∧
      isGoalReached p (isGoalReached p s).2 = (false, (isGoalReached p s).2) := by
  have hidle : ∀ s' : PlannerState, s'.current_goal = none →
      isGoalReached p s' = (false, s') := by
    intro s' h
    unfold isGoalReached
    rw [h]
  have hreach : isGoalReached p s =
      (true, { s with current_goal := none, guard := s.guard.clearFlag }) := by
    simp only [isGoalReached, hg]
    rw [if_pos ⟨hlin, hang⟩]
  refine ⟨hidle, hreach, ?_⟩
  rw [hreach]
  exact hidle _ rfl

/-- C5 witness: goal at the origin, robot at the origin, default tolerances. -/
theorem isGoalReached_once_witness :
    isGoalReached Params.defaultParams sampleState =
      (true,
        { sampleState with
          current_goal := none
          guard := sampleState.guard.clearFlag }) :=
  (isGoalReached_once Params.defaultParams sampleState ⟨0, 0, 0⟩ rfl
    (by
      have hd : linearDistance2D sampleState.robot_pose.pose (⟨0, 0, 0⟩ : Pose) = 0 := by
        show linearDistance2D ⟨0, 0, 0⟩ ⟨0, 0, 0⟩ = 0
        unfold linearDistance2D
        exact hypot_eq_of_sq _ _ _ le_rfl (by norm_num)
      rw [hd]
      norm_num [Params.defaultParams])
    (by
      rw [angularDistanceYaw_of_eq_yaw sampleState.robot_pose.pose ⟨0, 0, 0⟩ rfl]
      norm_num [Params.defaultParams])).2.1

/-- C6: with a replan owed and a goal active, `setPlan` on a non-empty plan
succeeds; it replaces the goal with the terminal waypoint's pose and resets
the controller and the motion planner precisely when that pose differs from
the current goal by more than 1e-8 in position or in heading; otherwise it
only updates the motion planner in place, leaving the goal and the
controller untouched. -/
theorem setPlan_replaces_goal_iff (s : PlannerState) (g : Pose) (w : PoseStamped)
    (ws : List PoseStamped) (howed : s.guard.replanning_flag = true)
    (hg : s.current_goal = some g) :
    (linearDistance2D g ((w :: ws).getLast (List.cons_ne_nil w ws)).pose > 1e-8 ∨
        angularDistanceYaw g ((w :: ws).getLast (List.cons_ne_nil w ws)).pose > 1e-8 →
      setPlan s (w :: ws) =
        (true,
          { s with
            current_goal := some ((w :: ws).getLast (List.cons_ne_nil w ws)).pose
            controller := controllerReset s.robot_pose.stamp
            motion_planner := motionPlannerReset (w :: ws) s.robot_pose.stamp })) ∧
      (¬(linearDistance2D g ((w :: ws).getLast (List.cons_ne_nil w ws)).pose > 1e-8 ∨
          angularDistanceYaw g ((w :: ws).getLast (List.cons_ne_nil w ws)).pose > 1e-8) →
        setPlan s (w :: ws) =
          (true,
            { s with
              motion_planner :=
                motionPlannerUpdate s.motion_planner (w :: ws) s.robot_pose.stamp })) := by
  have hng : newGoal s.current_goal ((w :: ws).getLast (List.cons_ne_nil w ws)).pose ↔
      (linearDistance2D g ((w :: ws).getLast (List.cons_ne_nil w ws)).pose > 1e-8 ∨
        angularDistanceYaw g ((w :: ws).getLast (List.cons_ne_nil w ws)).pose > 1e-8) := by
    rw [hg]
    exact Iff.rfl
  constructor
  · intro hd
    simp only [setPlan]
    rw [if_neg (by simp [howed]), if_pos (hng.mpr hd)]
  · intro hd
    simp only [setPlan]
    rw [if_neg (by simp [howed]), if_neg (fun hc => hd (hng.mp hc))]

/-- C6 witness: goal at the origin, terminal waypoint at (1, 0, 0) — a new
goal, so the full reset path is taken. -/
theorem setPlan_replaces_goal_iff_witness :
    setPlan sampleState [⟨0, ⟨1, 0, 0⟩⟩] =
      (true,
        { sampleState with
          current_goal := some (⟨1, 0, 0⟩ : Pose)
          controller := controllerReset sampleState.robot_pose.stamp
          motion_planner :=
            motionPlannerReset [⟨0, ⟨1, 0, 0⟩⟩] sampleState.robot_pose.stamp }) :=
  (setPlan_replaces_goal_iff sampleState ⟨0, 0, 0⟩ ⟨0, ⟨1, 0, 0⟩⟩ [] rfl rfl).1
    (Or.inl (by
      show linearDistance2D ⟨0, 0, 0⟩ ⟨1, 0, 0⟩ > 1e-8
      have hd : linearDistance2D ⟨0, 0, 0⟩ ⟨1, 0, 0⟩ = 1 := by
        unfold linearDistance2D
        exact hypot_eq_of_sq _ _ _ (by norm_num) (by norm_num)
      rw [hd]
      norm_num))

/-- C10: from the goal-less state with a replan owed, every non-empty plan is
treated as a new goal: `newGoal` holds for every terminal pose, the goal
becomes the terminal waypoint's pose, and the controller and the motion
planner are fully reset — the update-in-place path is never taken. -/
theorem setPlan_no_goal_always_resets (s : PlannerState) (w : PoseStamped)
    (ws : List PoseStamped) (howed : s.guard.replanning_flag = true)
    (hg : s.current_goal = none) :
    (∀ pose : Pose, newGoal s.current_goal pose) ∧
      setPlan s (w :: ws) =
        (true,
          { s with
            current_goal := some ((w :: ws).getLast (List.cons_ne_nil w ws)).pose
            controller := controllerReset s.robot_pose.stamp
            motion_planner := motionPlannerReset (w :: ws) s.robot_pose.stamp }) := by
  have hall : ∀ pose : Pose, newGoal s.current_goal pose := by
    intro pose
    rw [hg]
    trivial
  refine ⟨hall, ?_⟩
  simp only [setPlan]
  rw [if_neg (by simp [howed]), if_pos (hall _)]

/-- C10 witness: no goal active, replan owed, a one-waypoint plan. -/
theorem setPlan_no_goal_always_resets_witness :
    setPlan { sampleState with current_goal := none } [⟨0, ⟨1, 0, 0⟩⟩] =
      (true,
        { sampleState with
          current_goal := some (⟨1, 0, 0⟩ : Pose)
          controller := controllerReset sampleState.robot_pose.stamp
          motion_planner :=
            motionPlannerReset [⟨0, ⟨1, 0, 0⟩⟩] sampleState.robot_pose.stamp }) :=
  (setPlan_no_goal_always_resets { sampleState with current_goal := none }
    ⟨0, ⟨1, 0, 0⟩⟩ [] rfl rfl).2

/-- C4 (the failing input): at heading π/2 the source's `twistToGlobalFrame`
maps the twist (1, 1, 0) to (-1, 2, 0) — a pure rotation by the heading
gives (-1, 1, 0) — and the round trip through `twistToRobotFrame` yields
(2, 1, 0), not the input: line 302 of local_planner.cpp computes the second
row as `s * linx + s * liny` where the rotation matrix needs
`s * linx + c * liny`. -/
theorem twistToGlobalFrame_not_rotation :
    twistToGlobalFrame (Real.pi / 2) ⟨1, 1, 0⟩ = ⟨-1, 2, 0⟩ ∧
      twistToRobotFrame (Real.pi / 2) ⟨-1, 2, 0⟩ = ⟨2, 1, 0⟩ ∧
      twistToRobotFrame (Real.pi / 2) (twistToGlobalFrame (Real.pi / 2) ⟨1, 1, 0⟩) ≠
        (⟨1, 1, 0⟩ : Twist) := by
  have h1 : twistToGlobalFrame (Real.pi / 2) ⟨1, 1, 0⟩ = ⟨-1, 2, 0⟩ := by
    unfold twistToGlobalFrame
    simp only [Real.cos_pi_div_two, Real.sin_pi_div_two, Twist.mk.injEq]
    norm_num
  have h2 : twistToRobotFrame (Real.pi / 2) ⟨-1, 2, 0⟩ = ⟨2, 1, 0⟩ := by
    unfold twistToRobotFrame
    simp only [Real.cos_neg, Real.sin_neg, Real.cos_pi_div_two, Real.sin_pi_div_two,
      Twist.mk.injEq]
    norm_num
  refine ⟨h1, h2, ?_⟩
  rw [h1, h2]
  intro hcontra
  have h21 : (2 : ℝ) = 1 := congrArg Twist.linx hcontra
  norm_num at h21

/-- Componentwise description of `safeVelocityCommands`: the two linear
components share the `hypot` test, the angular component has its own. -/
theorem safeVelocityCommands_components (p : Params) (t : Twist) :
    safeVelocityCommands p t =
      ⟨if hypot t.linx t.liny > p.max_safe_lin_velocity then
          p.max_safe_lin_velocity * t.linx / hypot t.linx t.liny
        else t.linx,
        if hypot t.linx t.liny > p.max_safe_lin_velocity then
          p.max_safe_lin_velocity * t.liny / hypot t.linx t.liny
        else t.liny,
        if |t.angz| > p.max_safe_ang_velocity then copysign p.max_safe_ang_velocity t.angz
        else t.angz⟩ := by
  simp only [safeVelocityCommands]
  split_ifs <;> rfl

/-- C3: `safeVelocityCommands` is total (the zero twist maps to the zero
twist — no division by zero arises), every output respects both configured
bounds, the linear direction of every input is preserved by a positive
rescaling and the angular sign is preserved exactly, any input already
within both bounds passes through unchanged, and the linear input (1.2, 0)
under the default maximum linear velocity 0.5 yields exactly (0.5, 0). -/
theorem safeVelocityCommands_clamps (p : Params)
    (hlin : 0 < p.max_safe_lin_velocity) (hang : 0 < p.max_safe_ang_velocity) :
    safeVelocityCommands p ⟨0, 0, 0⟩ = ⟨0, 0, 0⟩ ∧
      (∀ t : Twist,
        hypot (safeVelocityCommands p t).linx (safeVelocityCommands p t).liny ≤
            p.max_safe_lin_velocity ∧
          |(safeVelocityCommands p t).angz| ≤ p.max_safe_ang_velocity) ∧
      (∀ t : Twist,
        (∃ c : ℝ, 0 < c ∧ (safeVelocityCommands p t).linx = c * t.linx ∧
            (safeVelocityCommands p t).liny = c * t.liny) ∧
          Real.sign (safeVelocityCommands p t).angz = Real.sign t.angz) ∧
      (∀ t : Twist, hypot t.linx t.liny ≤ p.max_safe_lin_velocity →
        |t.angz| ≤ p.max_safe_ang_velocity → safeVelocityCommands p t = t) ∧
      safeVelocityCommands Params.defaultParams ⟨1.2, 0, 0⟩ = ⟨0.5, 0, 0⟩ := by
  have hpass : ∀ t : Twist, hypot t.linx t.liny ≤ p.max_safe_lin_velocity →
      |t.angz| ≤ p.max_safe_ang_velocity → safeVelocityCommands p t = t := by
    intro t h1 h2
    rw [safeVelocityCommands_components p t, if_neg (not_lt.mpr h1),
      if_neg (not_lt.mpr h1), if_neg (not_lt.mpr h2)]
  have hbound : ∀ t : Twist,
      hypot (safeVelocityCommands p t).linx (safeVelocityCommands p t).liny ≤
          p.max_safe_lin_velocity ∧
        |(safeVelocityCommands p t).angz| ≤ p.max_safe_ang_velocity := by
    intro t
    rw [safeVelocityCommands_components p t]
    dsimp only
    constructor
    · by_cases hA : hypot t.linx t.liny > p.max_safe_lin_velocity
      · rw [if_pos hA, if_pos hA]
        have hm : 0 < hypot t.linx t.liny := lt_trans hlin hA
        have hmsq : hypot t.linx t.liny ^ 2 = t.linx ^ 2 + t.liny ^ 2 := hypot_sq _ _
        have he : (p.max_safe_lin_velocity * t.linx / hypot t.linx t.liny) ^ 2 +
            (p.max_safe_lin_velocity * t.liny / hypot t.linx t.liny) ^ 2 =
            p.max_safe_lin_velocity ^ 2 := by
          field_simp
          linear_combination (-1) * p.max_safe_lin_velocity ^ 2 * hmsq
        exact le_of_eq (hypot_eq_of_sq _ _ _ hlin.le he)
      · rw [if_neg hA, if_neg hA]
        exact not_lt.mp hA
    · by_cases hB : |t.angz| > p.max_safe_ang_velocity
      · rw [if_pos hB]
        have habs : |copysign p.max_safe_ang_velocity t.angz| =
            p.max_safe_ang_velocity := by
          unfold copysign
          split_ifs <;> simp [abs_neg, abs_abs, abs_of_pos hang]
        rw [habs]
      · rw [if_neg hB]
        exact not_lt.mp hB
  have hdir : ∀ t : Twist,
      (∃ c : ℝ, 0 < c ∧ (safeVelocityCommands p t).linx = c * t.linx ∧
          (safeVelocityCommands p t).liny = c * t.liny) ∧
        Real.sign (safeVelocityCommands p t).angz = Real.sign t.angz := by
    intro t
    rw [safeVelocityCommands_components p t]
    dsimp only
    constructor
    · by_cases hA : hypot t.linx t.liny > p.max_safe_lin_velocity
      · refine ⟨p.max_safe_lin_velocity / hypot t.linx t.liny,
          div_pos hlin (lt_trans hlin hA), ?_, ?_⟩ <;> rw [if_pos hA] <;> ring
      · exact ⟨1, one_pos, by rw [if_neg hA, one_mul], by rw [if_neg hA, one_mul]⟩
    · by_cases hB : |t.angz| > p.max_safe_ang_velocity
      · rw [if_pos hB]
        unfold copysign
        by_cases hneg : t.angz < 0
        · rw [if_pos hneg, abs_of_pos hang, Real.sign_of_neg (neg_lt_zero.mpr hang),
            Real.sign_of_neg hneg]
        · have hpos : 0 < t.angz := by
            rcases lt_or_eq_of_le (not_lt.mp hneg) with h | h
            · exact h
            · exfalso
              rw [← h, abs_zero] at hB
              exact absurd hB (not_lt.mpr hang.le)
          rw [if_neg hneg, abs_of_pos hang, Real.sign_of_pos hang,
            Real.sign_of_pos hpos]
      · rw [if_neg hB]
  have hscen : safeVelocityCommands Params.defaultParams ⟨1.2, 0, 0⟩ = ⟨0.5, 0, 0⟩ := by
    rw [safeVelocityCommands_components Params.defaultParams ⟨1.2, 0, 0⟩]
    dsimp only
    have hh : hypot (1.2 : ℝ) 0 = 1.2 :=
      hypot_eq_of_sq _ _ _ (by norm_num) (by norm_num)
    rw [hh, if_pos (by norm_num [Params.defaultParams]),
      if_pos (by norm_num [Params.defaultParams]),
      if_neg (by norm_num [Params.defaultParams])]
    simp only [Params.defaultParams, Twist.mk.injEq]
    norm_num
  exact ⟨hpass ⟨0, 0, 0⟩
      (by
        show hypot 0 0 ≤ _
        rw [hypot_zero]
        exact hlin.le)
      (by
        show |(0 : ℝ)| ≤ _
        rw [abs_zero]
        exact hang.le),
    hbound, hdir, hpass, hscen⟩

/-- C3 witness: the spec's clamping scenario, with both default maxima
positive. -/
theorem safeVelocityCommands_clamps_witness :
    safeVelocityCommands Params.defaultParams ⟨1.2, 0, 0⟩ = ⟨0.5, 0, 0⟩ :=
  (safeVelocityCommands_clamps Params.defaultParams
    (by norm_num [Params.defaultParams]) (by norm_num [Params.defaultParams])).2.2.2.2

end SquirrelNav
